import Mathlib

/-!
# Verification of the eduprompt action layer

Shallow embedding of `src/db/tables.ts` (the four-table schema) and
`src/src/actions/index.ts` (the authenticated RPC operations) of the
eduprompt repository, together with theorems settling the frozen claims
about template visibility, the ownership gate, favorites idempotency and
the frame/validation behaviour of the create/update operations.

Modelling conventions:
* Machine state is the content of the four tables plus the auto-increment
  counters; each handler is a function from input and state to a pair of an
  `Except` result and the post-state (a thrown `ActionError` aborts with the
  state as it stands at the throw site, which in this code is always before
  any write of the aborted operation).
* Timestamps (`new Date()` / `NOW`) are abstracted as a `Nat` argument `now`.
* Opaque JSON payloads (`z.record(z.any())`, `column.json`) are never
  inspected by the code, so they are carried as opaque strings.
* Zod input validation runs before the handler body; a schema violation is
  the `validationError` outcome, produced before any database access.
* SQL comparison `eq(col, v)` on a nullable column follows the semantics of
  the drizzle `eq` operator used by `astro:db`: it emits `col = ?` with the
  bound value (it does *not* rewrite `null` to `IS NULL`), and under SQL
  three-valued logic `col = v` is satisfied only when both sides are
  non-NULL and equal.  This is captured by `sqlEq` below; in particular
  `eq(col, null)` never matches any row.
-/

namespace Eduprompt

/-- Error taxonomy of the action layer (`ActionError` codes plus the
zod validation failure that is raised before the handler runs). -/
inductive ActionError where
  | unauthorized
  | notFound
  | forbidden
  | validationError
deriving Repr, DecidableEq

/-- Opaque JSON payload: the code passes these through without inspection. -/
abbrev Payload := String

/-- A row of the `PromptTemplates` table (`src/db/tables.ts`). -/
structure Template where
  id : Nat
  ownerId : Option String
  title : String
  description : Option String
  template : String
  tags : Option String
  isActive : Bool
  createdAt : Nat
  updatedAt : Nat
deriving Repr, DecidableEq

/-- A row of the `GeneratedPrompts` table. -/
structure GeneratedPrompt where
  id : Nat
  templateId : Option Nat
  userId : Option String
  input : Option Payload
  promptText : String
  meta : Option Payload
  createdAt : Nat
deriving Repr, DecidableEq

/-- A row of the `UserPromptFavorites` table (`userId` is a required
column there). -/
structure Favorite where
  id : Nat
  userId : String
  promptId : Nat
  createdAt : Nat
deriving Repr, DecidableEq

/-- The `status` enum of the `PromptJobs` table. -/
inductive JobStatus where
  | pending
  | completed
  | failed
deriving Repr, DecidableEq

/-- A row of the `PromptJobs` table. -/
structure PromptJob where
  id : Nat
  userId : Option String
  templateId : Option Nat
  input : Option Payload
  output : Option Payload
  status : JobStatus
  createdAt : Nat
deriving Repr, DecidableEq

/-- The database: the four tables plus the auto-increment counter of each
primary key. -/
structure DB where
  promptTemplates : List Template
  generatedPrompts : List GeneratedPrompt
  userPromptFavorites : List Favorite
  promptJobs : List PromptJob
  nextTemplateId : Nat
  nextPromptId : Nat
  nextFavoriteId : Nat
  nextJobId : Nat
deriving Repr, DecidableEq

/-- SQL `col = v` on a nullable column, as produced by drizzle's `eq`:
three-valued logic collapsed to the `WHERE`-clause reading, so the
comparison holds only when both sides are non-NULL and equal.  In
particular `sqlEq col none` (the translation of `eq(col, null)`) is
`false` for every row. -/
def sqlEq {α : Type} [DecidableEq α] (col v : Option α) : Bool :=
  match col, v with
  | some c, some x => decide (c = x)
  | _, _ => false

/-- Handler helper `requireUser`: extracts the authenticated caller from the request
context (modelled as the optional user id held in `locals`), throwing
`UNAUTHORIZED` when absent. -/
def requireUser (ctx : Option String) : Except ActionError String :=
  match ctx with
  | none => .error .unauthorized
  | some uid => .ok uid

/-- JS truthiness of the nullable text column `ownerId`: `null` and the
empty string are falsy, every other string is truthy. -/
def truthyText (s : Option String) : Bool :=
  match s with
  | none => false
  | some s => decide (s ≠ "")

/-- Gate `ensureTemplateAccessible`: selects the template row with the given id
(`[template] = select … where eq(id, templateId)`), throws `NOT_FOUND` when
no row matches, throws `FORBIDDEN` when `template.ownerId &&
template.ownerId !== userId` (a JS-truthiness guard on the first conjunct),
and returns the row otherwise. -/
def ensureTemplateAccessible (templateId : Nat) (userId : String) (db : DB) :
    Except ActionError Template :=
  match (db.promptTemplates.filter (fun t => t.id == templateId)).head? with
  | none => .error .notFound
  | some t =>
      if truthyText t.ownerId && t.ownerId != some userId then
        .error .forbidden
      else
        .ok t

/-! ## Template management -/

/-- Input of `createPromptTemplate` after zod parsing; the schema further
requires `title` and `template` to have length ≥ 1 (`createTemplateInputValid`). -/
structure CreateTemplateInput where
  title : String
  description : Option String
  template : String
  tags : Option String
  isActive : Option Bool
deriving Repr, DecidableEq

/-- zod schema of `createPromptTemplate`: `title: z.string().min(1)`,
`template: z.string().min(1)`; the other fields are optional and
unconstrained. -/
def createTemplateInputValid (i : CreateTemplateInput) : Bool :=
  decide (1 ≤ i.title.length) && decide (1 ≤ i.template.length)

/-- Handler `createPromptTemplate`: validate, authenticate, insert a row with
`ownerId = user.id`, `isActive = input.isActive ?? true` and both
timestamps equal to `now`, returning the inserted row. -/
def createPromptTemplate (ctx : Option String) (i : CreateTemplateInput)
    (now : Nat) (db : DB) : Except ActionError Template × DB :=
  if ¬ createTemplateInputValid i then
    (.error .validationError, db)
  else
    match requireUser ctx with
    | .error e => (.error e, db)
    | .ok uid =>
        let t : Template :=
          { id := db.nextTemplateId
            ownerId := some uid
            title := i.title
            description := i.description
            template := i.template
            tags := i.tags
            isActive := i.isActive.getD true
            createdAt := now
            updatedAt := now }
        (.ok t,
          { db with
              promptTemplates := db.promptTemplates ++ [t]
              nextTemplateId := db.nextTemplateId + 1 })

/-- Input of `updatePromptTemplate` after zod parsing; `some v` is a
supplied field, `none` an omitted one. -/
structure UpdateTemplateInput where
  id : Nat
  title : Option String
  description : Option String
  template : Option String
  tags : Option String
  isActive : Option Bool
deriving Repr, DecidableEq

/-- zod schema of `updatePromptTemplate`: a supplied `title` must have
length ≥ 1 (the other fields are unconstrained strings/booleans — note
`template` has no minimum length here, unlike creation), and the `refine`
cross-field rule requires at least one mutable field to be present. -/
def updateTemplateInputValid (i : UpdateTemplateInput) : Bool :=
  (match i.title with
   | some t => decide (1 ≤ t.length)
   | none => true) &&
  (i.title.isSome || i.description.isSome || i.template.isSome ||
    i.tags.isSome || i.isActive.isSome)

/-- The `set`-clause of `updatePromptTemplate`: each supplied field
overwrites the stored one, omitted fields are spread away, and
`updatedAt` is stamped with `now`. -/
def applyTemplatePatch (i : UpdateTemplateInput) (now : Nat) (t : Template) :
    Template :=
  { t with
      title := i.title.getD t.title
      description := match i.description with
        | some d => some d
        | none => t.description
      template := i.template.getD t.template
      tags := match i.tags with
        | some s => some s
        | none => t.tags
      isActive := i.isActive.getD t.isActive
      updatedAt := now }

/-- Handler `updatePromptTemplate`: validate, authenticate, run
`ensureTemplateAccessible`, then `update … set(patch) where eq(id, input.id)
returning()`; the result row is the first returned updated row (`[template]`
destructuring, hence an `Option`). -/
def updatePromptTemplate (ctx : Option String) (i : UpdateTemplateInput)
    (now : Nat) (db : DB) : Except ActionError (Option Template) × DB :=
  if ¬ updateTemplateInputValid i then
    (.error .validationError, db)
  else
    match requireUser ctx with
    | .error e => (.error e, db)
    | .ok uid =>
        match ensureTemplateAccessible i.id uid db with
        | .error e => (.error e, db)
        | .ok _ =>
            let updated := db.promptTemplates.map
              (fun t => if t.id == i.id then applyTemplatePatch i now t else t)
            (.ok ((updated.filter (fun t => t.id == i.id)).head?),
              { db with promptTemplates := updated })

/-- The `or(eq(ownerId, user.id), eq(ownerId, null))` visibility filter of
`listPromptTemplates`, under the SQL comparison semantics of `sqlEq`. -/
def visibilityFilter (uid : String) (t : Template) : Bool :=
  sqlEq t.ownerId (some uid) || sqlEq t.ownerId none

/-- Handler `listPromptTemplates`: authenticate, then select with the visibility
filter, additionally conjoined with `eq(isActive, true)` unless
`includeInactive` (default `false`) is set. -/
def listPromptTemplates (ctx : Option String) (includeInactive : Bool)
    (db : DB) : Except ActionError (List Template) :=
  match requireUser ctx with
  | .error e => .error e
  | .ok uid =>
      .ok (db.promptTemplates.filter (fun t =>
        if includeInactive then visibilityFilter uid t
        else visibilityFilter uid t && t.isActive == true))

/-! ## Generated-prompt management -/

/-- Input of `createGeneratedPrompt` after zod parsing; the schema further
requires `promptText` to have length ≥ 1. -/
structure CreatePromptInput where
  templateId : Option Nat
  input : Option Payload
  promptText : String
  meta : Option Payload
deriving Repr, DecidableEq

/-- zod schema of `createGeneratedPrompt`: `promptText: z.string().min(1)`. -/
def createPromptInputValid (i : CreatePromptInput) : Bool :=
  decide (1 ≤ i.promptText.length)

/-- Handler `createGeneratedPrompt`: validate, authenticate, run
`ensureTemplateAccessible` when a `templateId` is supplied, then insert a
row with `userId = user.id` and `createdAt = now`. -/
def createGeneratedPrompt (ctx : Option String) (i : CreatePromptInput)
    (now : Nat) (db : DB) : Except ActionError GeneratedPrompt × DB :=
  if ¬ createPromptInputValid i then
    (.error .validationError, db)
  else
    match requireUser ctx with
    | .error e => (.error e, db)
    | .ok uid =>
        match (match i.templateId with
               | some tid => (ensureTemplateAccessible tid uid db).map (fun _ => ())
               | none => .ok ()) with
        | .error e => (.error e, db)
        | .ok _ =>
            let p : GeneratedPrompt :=
              { id := db.nextPromptId
                templateId := i.templateId
                userId := some uid
                input := i.input
                promptText := i.promptText
                meta := i.meta
                createdAt := now }
            (.ok p,
              { db with
                  generatedPrompts := db.generatedPrompts ++ [p]
                  nextPromptId := db.nextPromptId + 1 })

/-- Handler `listGeneratedPrompts`: authenticate, then select the rows matching
`eq(userId, user.id)`, conjoined with `eq(templateId, input.templateId)`
when a `templateId` filter is supplied. -/
def listGeneratedPrompts (ctx : Option String) (templateId : Option Nat)
    (db : DB) : Except ActionError (List GeneratedPrompt) :=
  match requireUser ctx with
  | .error e => .error e
  | .ok uid =>
      .ok (db.generatedPrompts.filter (fun p =>
        sqlEq p.userId (some uid) &&
        (match templateId with
         | some tid => sqlEq p.templateId (some tid)
         | none => true)))

/-! ## Favorites management -/

/-- Handler `addFavoritePrompt`: authenticate; select the prompt with
`and(eq(id, promptId), eq(userId, user.id))`, throwing `NOT_FOUND` when
none matches; select an existing favorite with
`and(eq(promptId, promptId), eq(userId, user.id))` and return it when
present; otherwise insert and return a fresh favorite row. -/
def addFavoritePrompt (ctx : Option String) (promptId : Nat) (now : Nat)
    (db : DB) : Except ActionError Favorite × DB :=
  match requireUser ctx with
  | .error e => (.error e, db)
  | .ok uid =>
      match (db.generatedPrompts.filter (fun p =>
               p.id == promptId && sqlEq p.userId (some uid))).head? with
      | none => (.error .notFound, db)
      | some _ =>
          match (db.userPromptFavorites.filter (fun f =>
                   f.promptId == promptId && f.userId == uid)).head? with
          | some existingFavorite => (.ok existingFavorite, db)
          | none =>
              let f : Favorite :=
                { id := db.nextFavoriteId
                  userId := uid
                  promptId := promptId
                  createdAt := now }
              (.ok f,
                { db with
                    userPromptFavorites := db.userPromptFavorites ++ [f]
                    nextFavoriteId := db.nextFavoriteId + 1 })

/-- Handler `removeFavoritePrompt`: authenticate; delete the rows matching
`and(eq(promptId, promptId), eq(userId, user.id))`; throw `NOT_FOUND` when
`result.rowsAffected === 0`. -/
def removeFavoritePrompt (ctx : Option String) (promptId : Nat) (db : DB) :
    Except ActionError Unit × DB :=
  match requireUser ctx with
  | .error e => (.error e, db)
  | .ok uid =>
      let remaining := db.userPromptFavorites.filter
        (fun f => ! (f.promptId == promptId && f.userId == uid))
      let rowsAffected := db.userPromptFavorites.length - remaining.length
      if rowsAffected == 0 then
        (.error .notFound, { db with userPromptFavorites := remaining })
      else
        (.ok (), { db with userPromptFavorites := remaining })

/-- Handler `listFavoritePrompts`: authenticate, then select the caller's favorite
rows (`eq(userId, user.id)` on a non-nullable column). -/
def listFavoritePrompts (ctx : Option String) (db : DB) :
    Except ActionError (List Favorite) :=
  match requireUser ctx with
  | .error e => .error e
  | .ok uid =>
      .ok (db.userPromptFavorites.filter (fun f => f.userId == uid))

/-! ## Job history management -/

/-- Input of `createPromptJob` after zod parsing. -/
structure CreateJobInput where
  templateId : Option Nat
  input : Option Payload
  output : Option Payload
  status : Option JobStatus
deriving Repr, DecidableEq

/-- Handler `createPromptJob`: authenticate, run `ensureTemplateAccessible` when a
`templateId` is supplied, then insert a row with `userId = user.id`,
`status = input.status ?? "completed"` and `createdAt = now`. -/
def createPromptJob (ctx : Option String) (i : CreateJobInput) (now : Nat)
    (db : DB) : Except ActionError PromptJob × DB :=
  match requireUser ctx with
  | .error e => (.error e, db)
  | .ok uid =>
      match (match i.templateId with
             | some tid => (ensureTemplateAccessible tid uid db).map (fun _ => ())
             | none => .ok ()) with
      | .error e => (.error e, db)
      | .ok _ =>
          let j : PromptJob :=
            { id := db.nextJobId
              userId := some uid
              templateId := i.templateId
              input := i.input
              output := i.output
              status := i.status.getD .completed
              createdAt := now }
          (.ok j,
            { db with
                promptJobs := db.promptJobs ++ [j]
                nextJobId := db.nextJobId + 1 })

/-- Handler `listPromptJobs`: authenticate, then select the rows matching
`eq(userId, user.id)` on the nullable `userId` column. -/
def listPromptJobs (ctx : Option String) (db : DB) :
    Except ActionError (List PromptJob) :=
  match requireUser ctx with
  | .error e => .error e
  | .ok uid =>
      .ok (db.promptJobs.filter (fun j => sqlEq j.userId (some uid)))

/-! ## Concrete states used to evaluate the operations -/

/-- An ownerless (shared) active template, as the schema comment describes
system templates. -/
def sharedTemplate : Template :=
  { id := 1, ownerId := none, title := "Shared starter", description := none,
    template := "Explain the topic simply.", tags := none, isActive := true,
    createdAt := 0, updatedAt := 0 }

/-- An active template owned by `alice`. -/
def aliceTemplate : Template :=
  { id := 2, ownerId := some "alice", title := "Alice lesson", description := none,
    template := "Write a lesson intro.", tags := none, isActive := true,
    createdAt := 0, updatedAt := 0 }

/-- The empty database. -/
def emptyDB : DB :=
  { promptTemplates := [], generatedPrompts := [], userPromptFavorites := [],
    promptJobs := [], nextTemplateId := 1, nextPromptId := 1,
    nextFavoriteId := 1, nextJobId := 1 }

/-- State holding one shared template and one template owned by `alice`. -/
def c1DB : DB :=
  { emptyDB with promptTemplates := [sharedTemplate, aliceTemplate], nextTemplateId := 3 }

/-- A generated prompt with id 7 owned by `alice`. -/
def alicePrompt : GeneratedPrompt :=
  { id := 7, templateId := none, userId := some "alice", input := none,
    promptText := "A generated prompt.", meta := none, createdAt := 0 }

/-- State holding `alice`'s prompt 7 and no favorites. -/
def c2DB : DB :=
  { emptyDB with generatedPrompts := [alicePrompt], nextPromptId := 8 }

/-- State holding `alice`'s prompt 7 and exactly one favorite for it. -/
def c3DB : DB :=
  { emptyDB with
      generatedPrompts := [alicePrompt]
      userPromptFavorites := [{ id := 1, userId := "alice", promptId := 7, createdAt := 0 }]
      nextPromptId := 8, nextFavoriteId := 2 }

/-- A template whose `ownerId` is the empty string: non-null, yet falsy in
the JS guard of `ensureTemplateAccessible`. -/
def emptyOwnerTemplate : Template :=
  { id := 1, ownerId := some "", title := "Degenerate owner", description := none,
    template := "Body.", tags := none, isActive := true, createdAt := 0, updatedAt := 0 }

/-- State holding only the empty-string-owner template. -/
def c4DB : DB :=
  { emptyDB with promptTemplates := [emptyOwnerTemplate], nextTemplateId := 2 }

/-- A template owned by `bob`. -/
def bobTemplate : Template :=
  { id := 1, ownerId := some "bob", title := "Bob lesson", description := none,
    template := "Body.", tags := none, isActive := true, createdAt := 0, updatedAt := 0 }

/-- State holding only `bob`'s template. -/
def c4wDB : DB :=
  { emptyDB with promptTemplates := [bobTemplate], nextTemplateId := 2 }

/-- Prompts of two different users sharing a template id. -/
def c5DB : DB :=
  { emptyDB with
      generatedPrompts :=
        [ { id := 1, templateId := some 2, userId := some "alice", input := none,
            promptText := "P1", meta := none, createdAt := 0 },
          { id := 2, templateId := some 2, userId := some "bob", input := none,
            promptText := "P2", meta := none, createdAt := 0 },
          { id := 3, templateId := none, userId := some "alice", input := none,
            promptText := "P3", meta := none, createdAt := 0 } ]
      nextPromptId := 4 }

/-- An update input that only sets the template body, to the empty string. -/
def c9Input : UpdateTemplateInput :=
  { id := 2, title := none, description := none, template := some "",
    tags := none, isActive := none }

/-! ## Helper lemmas -/

@[simp] theorem sqlEq_none_right {α : Type} [DecidableEq α] (col : Option α) :
    sqlEq col none = false := by
  cases col <;> rfl

@[simp] theorem sqlEq_some_right {α : Type} [DecidableEq α] (col : Option α) (x : α) :
    sqlEq col (some x) = true ↔ col = some x := by
  cases col <;> simp [sqlEq]

/-! ## Claims -/

/-- C1: the claim says `listPromptTemplates` returns the caller's rows
*plus* the ownerless (shared) rows.  The code's `eq(ownerId, null)` branch
compiles to the SQL comparison `ownerId = NULL`, which no row satisfies, so
an ownerless active template is dropped from the listing even though the
caller's own template is returned: in the state `c1DB` the shared active
template is present but absent from the result, under both values of
`includeInactive`. -/
theorem c1_ownerless_templates_never_listed :
    listPromptTemplates (some "alice") false c1DB = .ok [aliceTemplate] ∧
    listPromptTemplates (some "alice") true c1DB = .ok [aliceTemplate] ∧
    sharedTemplate ∈ c1DB.promptTemplates ∧
    sharedTemplate.ownerId = none ∧ sharedTemplate.isActive = true := by
  refine ⟨rfl, rfl, ?_, rfl, rfl⟩
  simp [c1DB, emptyDB]

/-- C8: `createPromptTemplate` rejects an empty title or empty template
body with `validationError` and leaves the database unchanged; on success
the inserted row carries `ownerId` = the caller, `isActive` = the supplied
value (or `true` when omitted) and equal timestamps, and it is appended to
the table. -/
theorem c8_createPromptTemplate_validation_and_stamps
    (uid : String) (i : CreateTemplateInput) (now : Nat) (db : DB) :
    ((i.title = "" ∨ i.template = "") →
      createPromptTemplate (some uid) i now db = (.error .validationError, db)) ∧
    (∀ t db', createPromptTemplate (some uid) i now db = (.ok t, db') →
      t.ownerId = some uid ∧
      (i.isActive = none → t.isActive = true) ∧
      (∀ b, i.isActive = some b → t.isActive = b) ∧
      t.createdAt = t.updatedAt ∧
      db'.promptTemplates = db.promptTemplates ++ [t]) := by
  constructor
  · intro h
    have hv : createTemplateInputValid i = false := by
      rcases h with h | h <;> simp [createTemplateInputValid, h]
    simp [createPromptTemplate, hv]
  · intro t db' h
    by_cases hv : createTemplateInputValid i
    · simp only [createPromptTemplate, hv, not_true, if_neg, requireUser,
        Prod.mk.injEq, Except.ok.injEq, if_false, Bool.not_eq_true] at h
      obtain ⟨ht, hdb⟩ := h
      subst ht
      subst hdb
      refine ⟨rfl, ?_, ?_, rfl, rfl⟩
      · intro hn; simp [hn]
      · intro b hb; simp [hb]
    · simp [createPromptTemplate, hv] at h

/-- Witness for C8 at a concrete input: an empty title is rejected, and a
successful creation for `bob` stamps the expected fields. -/
theorem c8_createPromptTemplate_witness :
    createPromptTemplate (some "bob")
        { title := "", description := none, template := "Body.", tags := none,
          isActive := none } 3 emptyDB = (.error .validationError, emptyDB) ∧
    ∀ t db', createPromptTemplate (some "bob")
        { title := "T", description := none, template := "Body.", tags := none,
          isActive := none } 3 emptyDB = (.ok t, db') →
      t.ownerId = some "bob" ∧ t.createdAt = t.updatedAt := by
  constructor
  · exact (c8_createPromptTemplate_validation_and_stamps "bob" _ 3 emptyDB).1
      (Or.inl rfl)
  · intro t db' h
    have h2 := (c8_createPromptTemplate_validation_and_stamps "bob" _ 3 emptyDB).2
      t db' h
    exact ⟨h2.1, h2.2.2.2.1⟩

/-- C9: the update schema places no minimum length on `template` (unlike
creation), so the input that sets only `template := ""` passes validation,
and running it against `alice`'s template (body `"Write a lesson intro."`,
non-empty) succeeds and leaves the stored body empty: the non-empty-body
rule enforced at creation is not preserved by update. -/
theorem c9_update_admits_empty_body :
    updateTemplateInputValid c9Input = true ∧
    createTemplateInputValid
      { title := "T", description := none, template := "", tags := none,
        isActive := none } = false ∧
    (∃ t, (updatePromptTemplate (some "alice") c9Input 5 c1DB).1 = .ok (some t) ∧
       t.template = "") ∧
    aliceTemplate.template ≠ "" := by
  refine ⟨rfl, rfl, ⟨applyTemplatePatch c9Input 5 aliceTemplate, rfl, rfl⟩, by decide⟩

/-- C4 counterexample: the claim says the gate fails `Forbidden` whenever
the matching row's `ownerId` is non-null and differs from the caller.  A
row whose owner is the empty string has a non-null owner differing from
`alice`, yet the JS-truthiness guard `template.ownerId && …` treats the
empty string as falsy and the gate returns the row instead of failing. -/
theorem c4_empty_string_owner_not_forbidden :
    emptyOwnerTemplate.ownerId = some "" ∧ ("" : String) ≠ "alice" ∧
    ensureTemplateAccessible 1 "alice" c4DB = .ok emptyOwnerTemplate ∧
    ensureTemplateAccessible 1 "alice" c4DB ≠ .error .forbidden := by
  refine ⟨rfl, by decide, rfl, fun h => ?_⟩
  have h2 : (Except.ok emptyOwnerTemplate : Except ActionError Template)
      = .error .forbidden :=
    (show ensureTemplateAccessible 1 "alice" c4DB
        = .ok emptyOwnerTemplate from rfl) ▸ h
  exact Except.noConfusion h2

/-- C4 (amended): the gate fails `notFound` exactly when no template row
has the given id; when the first matching row has a *non-empty* owner
differing from the caller it fails `forbidden`, and otherwise (owner null,
empty, or equal to the caller) it returns the row; and whenever it fails,
`createGeneratedPrompt`, `createPromptJob` and `updatePromptTemplate`
invoked with that template id leave the database unchanged. -/
theorem c4_ensureTemplateAccessible_gate
    (tid : Nat) (uid : String) (db : DB) :
    (ensureTemplateAccessible tid uid db = .error .notFound ↔
       ∀ t ∈ db.promptTemplates, t.id ≠ tid) ∧
    (∀ t, (db.promptTemplates.filter (fun u => u.id == tid)).head? = some t →
       (t.ownerId = none → ensureTemplateAccessible tid uid db = .ok t) ∧
       (∀ o, t.ownerId = some o →
          if o ≠ "" ∧ o ≠ uid then
            ensureTemplateAccessible tid uid db = .error .forbidden
          else
            ensureTemplateAccessible tid uid db = .ok t)) ∧
    (∀ e, ensureTemplateAccessible tid uid db = .error e →
       (∀ i now, i.templateId = some tid →
          (createGeneratedPrompt (some uid) i now db).2 = db) ∧
       (∀ i now, i.templateId = some tid →
          (createPromptJob (some uid) i now db).2 = db) ∧
       (∀ i now, i.id = tid →
          (updatePromptTemplate (some uid) i now db).2 = db)) := by
  refine ⟨⟨?_, ?_⟩, ?_, ?_⟩
  · intro h
    cases hh : (db.promptTemplates.filter (fun u => u.id == tid)).head? with
    | none =>
        rw [List.head?_eq_none_iff, List.filter_eq_nil_iff] at hh
        intro t ht
        simpa using hh t ht
    | some t =>
        exfalso
        simp only [ensureTemplateAccessible, hh] at h
        split at h <;> simp at h
  · intro h
    have hh : db.promptTemplates.filter (fun u => u.id == tid) = [] := by
      rw [List.filter_eq_nil_iff]
      intro t ht
      simp [h t ht]
    simp [ensureTemplateAccessible, hh]
  · intro t h
    constructor
    · intro hn
      simp [ensureTemplateAccessible, h, truthyText, hn]
    · intro o ho
      by_cases hc : o ≠ "" ∧ o ≠ uid
      · rw [if_pos hc]
        simp [ensureTemplateAccessible, h, truthyText, ho, hc.1, hc.2]
      · rw [if_neg hc]
        rw [not_and_or, not_not, not_not] at hc
        rcases hc with hc | hc <;>
          simp [ensureTemplateAccessible, h, truthyText, ho, hc]
  · intro e he
    refine ⟨?_, ?_, ?_⟩
    · intro i now hi
      by_cases hv : createPromptInputValid i
      · simp [createGeneratedPrompt, hv, requireUser, hi, he, Except.map]
      · simp [createGeneratedPrompt, hv]
    · intro i now hi
      simp [createPromptJob, requireUser, hi, he, Except.map]
    · intro i now hi
      by_cases hv : updateTemplateInputValid i
      · subst hi
        simp [updatePromptTemplate, hv, requireUser, he]
      · simp [updatePromptTemplate, hv]

/-- Witness for the amended C4: `alice` is refused on `bob`'s template,
and a prompt-creation attempt referencing it leaves the state unchanged. -/
theorem c4_ensureTemplateAccessible_gate_witness :
    ensureTemplateAccessible 1 "alice" c4wDB = .error .forbidden ∧
    (createGeneratedPrompt (some "alice")
        { templateId := some 1, input := none, promptText := "P", meta := none }
        3 c4wDB).2 = c4wDB := by
  have h := c4_ensureTemplateAccessible_gate 1 "alice" c4wDB
  have hf := h.2.1 bobTemplate rfl
  have hforb := hf.2 "bob" rfl
  rw [if_pos (by decide)] at hforb
  exact ⟨hforb, (h.2.2 .forbidden hforb).1 _ 3 rfl⟩

/-- C5: `listGeneratedPrompts` returns a list whose members are exactly
the stored prompts with `userId` equal to the caller, further restricted
to the supplied `templateId` when one is given — the full matching set,
never a row of another user. -/
theorem c5_listGeneratedPrompts_scoped
    (uid : String) (templateId : Option Nat) (db : DB) :
    ∃ l, listGeneratedPrompts (some uid) templateId db = .ok l ∧
      ∀ p, p ∈ l ↔
        (p ∈ db.generatedPrompts ∧ p.userId = some uid ∧
          ∀ tid, templateId = some tid → p.templateId = some tid) := by
  refine ⟨_, rfl, fun p => ?_⟩
  cases templateId <;>
    simp [listGeneratedPrompts, requireUser, List.mem_filter, and_assoc]

/-- Witness for C5: evaluated in a state holding rows of two users, with
the `templateId` filter supplied. -/
theorem c5_listGeneratedPrompts_scoped_witness :
    ∃ l, listGeneratedPrompts (some "alice") (some 2) c5DB = .ok l ∧
      ∀ p, p ∈ l ↔
        (p ∈ c5DB.generatedPrompts ∧ p.userId = some "alice" ∧
          ∀ tid, (some 2 : Option Nat) = some tid → p.templateId = some tid) :=
  c5_listGeneratedPrompts_scoped "alice" (some 2) c5DB

/-- C7: `addFavoritePrompt` fails `notFound` exactly when no stored prompt
has the given id *and* the caller as `userId`; on success the created or
returned favorite belongs to the caller, references the requested prompt,
and the target prompt exists and is owned by the caller — there is no
cross-user favorites path. -/
theorem c7_addFavoritePrompt_notFound
    (uid : String) (pid : Nat) (now : Nat) (db : DB) :
    ((addFavoritePrompt (some uid) pid now db).1 = .error .notFound ↔
       ∀ p ∈ db.generatedPrompts, ¬(p.id = pid ∧ p.userId = some uid)) ∧
    (∀ f db', addFavoritePrompt (some uid) pid now db = (.ok f, db') →
       f.userId = uid ∧ f.promptId = pid ∧
       ∃ p ∈ db.generatedPrompts, p.id = pid ∧ p.userId = some uid) := by
  constructor
  · constructor
    · intro h
      cases hp : (db.generatedPrompts.filter (fun p =>
          p.id == pid && sqlEq p.userId (some uid))).head? with
      | none =>
          rw [List.head?_eq_none_iff, List.filter_eq_nil_iff] at hp
          intro p hmem hcontra
          exact absurd (by simp [hcontra.1, hcontra.2]) (hp p hmem)
      | some p =>
          exfalso
          simp only [addFavoritePrompt, requireUser, hp] at h
          cases hf : (db.userPromptFavorites.filter (fun f =>
              f.promptId == pid && f.userId == uid)).head? <;>
            simp [hf] at h
    · intro h
      have hp : db.generatedPrompts.filter (fun p =>
          p.id == pid && sqlEq p.userId (some uid)) = [] := by
        rw [List.filter_eq_nil_iff]
        intro p hmem
        have := h p hmem
        simp only [not_and] at this
        simp only [Bool.and_eq_true, beq_iff_eq, sqlEq_some_right, not_and]
        exact this
      simp [addFavoritePrompt, requireUser, hp]
  · intro f db' h
    cases hp : (db.generatedPrompts.filter (fun p =>
        p.id == pid && sqlEq p.userId (some uid))).head? with
    | none => simp [addFavoritePrompt, requireUser, hp] at h
    | some p =>
        have hpmem : p ∈ db.generatedPrompts.filter (fun p =>
            p.id == pid && sqlEq p.userId (some uid)) :=
          List.mem_of_mem_head? (by simp [hp])
        rw [List.mem_filter] at hpmem
        have hpid : p.id = pid ∧ p.userId = some uid := by
          have := hpmem.2
          simp only [Bool.and_eq_true, beq_iff_eq, sqlEq_some_right] at this
          exact this
        refine ?_
        simp only [addFavoritePrompt, requireUser, hp] at h
        cases hf : (db.userPromptFavorites.filter (fun f =>
            f.promptId == pid && f.userId == uid)).head? with
        | some existing =>
            rw [hf] at h
            have hemem : existing ∈ db.userPromptFavorites.filter (fun f =>
                f.promptId == pid && f.userId == uid) :=
              List.mem_of_mem_head? (by simp [hf])
            rw [List.mem_filter] at hemem
            have hef : existing.promptId = pid ∧ existing.userId = uid := by
              have := hemem.2
              simp only [Bool.and_eq_true, beq_iff_eq] at this
              exact this
            simp only [Prod.mk.injEq, Except.ok.injEq] at h
            exact ⟨h.1 ▸ hef.2, h.1 ▸ hef.1, p, hpmem.1, hpid⟩
        | none =>
            rw [hf] at h
            simp only [Prod.mk.injEq, Except.ok.injEq] at h
            exact ⟨h.1 ▸ rfl, h.1 ▸ rfl, p, hpmem.1, hpid⟩

/-- Witness for C7: in a state where prompt 7 belongs to `alice`, the call
by `bob` fails `notFound` (cross-user), and `alice`'s successful call
yields a favorite of her own. -/
theorem c7_addFavoritePrompt_notFound_witness :
    (addFavoritePrompt (some "bob") 7 3 c2DB).1 = .error .notFound ∧
    ∀ f db', addFavoritePrompt (some "alice") 7 3 c2DB = (.ok f, db') →
      f.userId = "alice" := by
  constructor
  · exact (c7_addFavoritePrompt_notFound "bob" 7 3 c2DB).1.2 (by decide)
  · intro f db' h
    exact ((c7_addFavoritePrompt_notFound "alice" 7 3 c2DB).2 f db' h).1

/-- The delete of `removeFavoritePrompt` reports zero affected rows — and
hence fails `notFound` — exactly when no stored favorite matches the
caller and the prompt id. -/
theorem removeFavorite_notFound_iff (uid : String) (pid : Nat) (db : DB) :
    (removeFavoritePrompt (some uid) pid db).1 = .error .notFound ↔
      ∀ f ∈ db.userPromptFavorites, ¬(f.promptId = pid ∧ f.userId = uid) := by
  by_cases hc : db.userPromptFavorites.length -
      (db.userPromptFavorites.filter
        (fun f => !(f.promptId == pid && f.userId == uid))).length = 0
  · have hlen : (db.userPromptFavorites.filter
        (fun f => !(f.promptId == pid && f.userId == uid))).length
          = db.userPromptFavorites.length :=
      Nat.le_antisymm (List.length_filter_le _ _) (Nat.le_of_sub_eq_zero hc)
    have hall := List.filter_length_eq_length.mp hlen
    simp only [removeFavoritePrompt, requireUser, hc]
    simp only [beq_self_eq_true, if_true, true_iff]
    intro f hf
    have hb := hall f hf
    simp only [Bool.not_eq_true', Bool.and_eq_false_iff, beq_eq_false_iff_ne,
      ne_eq] at hb
    intro hcontra
    rcases hb with hb | hb <;> exact hb (by simp [hcontra.1, hcontra.2])
  · simp only [removeFavoritePrompt, requireUser]
    rw [if_neg (by simpa using hc)]
    simp only [reduceCtorEq, false_iff, not_forall]
    have hlt : (db.userPromptFavorites.filter
        (fun f => !(f.promptId == pid && f.userId == uid))).length
          < db.userPromptFavorites.length := by
      have hle := List.length_filter_le
        (fun f => !(f.promptId == pid && f.userId == uid)) db.userPromptFavorites
      omega
    obtain ⟨f, hfm, hfp⟩ := List.length_filter_lt_length_iff_exists.mp hlt
    refine ⟨f, hfm, ?_⟩
    have hfp' : (f.promptId == pid && f.userId == uid) = true := by
      simpa using hfp
    simp only [Bool.and_eq_true, beq_iff_eq] at hfp'
    simp [hfp'.1, hfp'.2]

/-- C3: `removeFavoritePrompt` deletes the (caller, promptId) favorite
rows and fails `notFound` exactly when zero rows matched; consequently, in
a state holding exactly one such favorite, the first call succeeds and the
second call on the resulting state fails `notFound` — remove is not
idempotent. -/
theorem c3_removeFavoritePrompt_not_idempotent
    (uid : String) (pid : Nat) (db : DB)
    (h1 : (db.userPromptFavorites.filter (fun f =>
        f.promptId == pid && f.userId == uid)).length = 1) :
    (∀ db' : DB, (removeFavoritePrompt (some uid) pid db').1 = .error .notFound ↔
       ∀ f ∈ db'.userPromptFavorites, ¬(f.promptId = pid ∧ f.userId = uid)) ∧
    (removeFavoritePrompt (some uid) pid db).1 = .ok () ∧
    (removeFavoritePrompt (some uid) pid db).2.userPromptFavorites
      = db.userPromptFavorites.filter
          (fun f => !(f.promptId == pid && f.userId == uid)) ∧
    (removeFavoritePrompt (some uid) pid
        (removeFavoritePrompt (some uid) pid db).2).1 = .error .notFound := by
  have hsnd : ∀ d : DB, (removeFavoritePrompt (some uid) pid d).2.userPromptFavorites
      = d.userPromptFavorites.filter
          (fun f => !(f.promptId == pid && f.userId == uid)) := by
    intro d
    simp only [removeFavoritePrompt, requireUser]
    split <;> rfl
  refine ⟨fun db' => removeFavorite_notFound_iff uid pid db', ?_, hsnd db, ?_⟩
  · have hpos : 0 < (db.userPromptFavorites.filter (fun f =>
        f.promptId == pid && f.userId == uid)).length := by omega
    obtain ⟨f, hf⟩ := List.exists_mem_of_length_pos hpos
    rw [List.mem_filter] at hf
    have hlt : (db.userPromptFavorites.filter
        (fun f => !(f.promptId == pid && f.userId == uid))).length
          < db.userPromptFavorites.length :=
      List.length_filter_lt_length_iff_exists.mpr ⟨f, hf.1, by simp [hf.2]⟩
    simp only [removeFavoritePrompt, requireUser]
    rw [if_neg (by simp only [beq_iff_eq]; omega)]
  · rw [removeFavorite_notFound_iff, hsnd db]
    intro f hf
    rw [List.mem_filter] at hf
    have hb := hf.2
    simp only [Bool.not_eq_true', Bool.and_eq_false_iff, beq_eq_false_iff_ne,
      ne_eq] at hb
    intro hcontra
    rcases hb with hb | hb <;> exact hb (by simp [hcontra.1, hcontra.2])

/-- Witness for C3: in the state holding exactly one favorite for
(`alice`, 7), the first removal succeeds and the second fails `notFound`. -/
theorem c3_removeFavoritePrompt_not_idempotent_witness :
    (removeFavoritePrompt (some "alice") 7 c3DB).1 = .ok () ∧
    (removeFavoritePrompt (some "alice") 7
        (removeFavoritePrompt (some "alice") 7 c3DB).2).1 = .error .notFound := by
  have h := c3_removeFavoritePrompt_not_idempotent "alice" 7 c3DB (by rfl)
  exact ⟨h.2.1, h.2.2.2⟩

/-- C2: for a prompt owned by the caller, two sequential
`addFavoritePrompt` calls with the same prompt id both succeed, both
return the same favorite row, and the state after the first call — which
the second call does not change — holds exactly one favorite for the
(caller, prompt) pair.  The state is assumed to satisfy the documented
favorites invariant (at most one row per pair), which non-concurrent use
of the API preserves. -/
theorem c2_addFavoritePrompt_idempotent
    (uid : String) (pid : Nat) (now₁ now₂ : Nat) (db : DB)
    (hp : ∃ p ∈ db.generatedPrompts, p.id = pid ∧ p.userId = some uid)
    (hinv : (db.userPromptFavorites.filter (fun f =>
        f.promptId == pid && f.userId == uid)).length ≤ 1) :
    ∃ f db₁,
      addFavoritePrompt (some uid) pid now₁ db = (.ok f, db₁) ∧
      addFavoritePrompt (some uid) pid now₂ db₁ = (.ok f, db₁) ∧
      (db₁.userPromptFavorites.filter (fun f =>
          f.promptId == pid && f.userId == uid)).length = 1 := by
  obtain ⟨p, hpm, hpp⟩ := hp
  obtain ⟨p₀, hp₀⟩ : ∃ q, (db.generatedPrompts.filter (fun q =>
      q.id == pid && sqlEq q.userId (some uid))).head? = some q := by
    cases hh : (db.generatedPrompts.filter (fun q =>
        q.id == pid && sqlEq q.userId (some uid))).head? with
    | none =>
        rw [List.head?_eq_none_iff, List.filter_eq_nil_iff] at hh
        exact absurd (by simp [hpp.1, hpp.2]) (hh p hpm)
    | some q => exact ⟨q, rfl⟩
  cases hf : (db.userPromptFavorites.filter (fun f =>
      f.promptId == pid && f.userId == uid)).head? with
  | some f₀ =>
      refine ⟨f₀, db, ?_, ?_, ?_⟩
      · simp [addFavoritePrompt, requireUser, hp₀, hf]
      · simp [addFavoritePrompt, requireUser, hp₀, hf]
      · have hmem : f₀ ∈ db.userPromptFavorites.filter (fun f =>
            f.promptId == pid && f.userId == uid) :=
          List.mem_of_mem_head? (by simp [hf])
        have hpos : 0 < (db.userPromptFavorites.filter (fun f =>
            f.promptId == pid && f.userId == uid)).length :=
          List.length_pos.mpr (List.ne_nil_of_mem hmem)
        omega
  | none =>
      rw [List.head?_eq_none_iff] at hf
      refine ⟨⟨db.nextFavoriteId, uid, pid, now₁⟩,
        { db with
            userPromptFavorites := db.userPromptFavorites ++
              [⟨db.nextFavoriteId, uid, pid, now₁⟩]
            nextFavoriteId := db.nextFavoriteId + 1 }, ?_, ?_, ?_⟩
      · simp [addFavoritePrompt, requireUser, hp₀, hf]
      · simp [addFavoritePrompt, requireUser, hp₀, hf, List.filter_append]
      · simp [hf, List.filter_append]

/-- Witness for C2: starting from the state where `alice` owns prompt 7
and has no favorites, the two calls agree and leave one favorite row. -/
theorem c2_addFavoritePrompt_idempotent_witness :
    ∃ f db₁,
      addFavoritePrompt (some "alice") 7 3 c2DB = (.ok f, db₁) ∧
      addFavoritePrompt (some "alice") 7 9 db₁ = (.ok f, db₁) ∧
      (db₁.userPromptFavorites.filter (fun f =>
          f.promptId == 7 && f.userId == "alice")).length = 1 :=
  c2_addFavoritePrompt_idempotent "alice" 7 3 9 c2DB
    ⟨alicePrompt, by simp [c2DB, emptyDB], rfl, rfl⟩ (by decide)

/-- C6: `updatePromptTemplate` rejects an input with no mutable field as a
`validationError` without touching the state; a validated input that fails
the accessibility gate propagates the gate's error with the state
unchanged; and a successful call patches exactly the rows with the given
id — every other row is carried over unchanged, the returned row is the
patch of the first stored row with that id, and the patch overwrites only
the supplied fields plus `updatedAt`, preserving `id`, `ownerId`,
`createdAt` and every omitted field. -/
theorem c6_updatePromptTemplate_patch_semantics
    (uid : String) (i : UpdateTemplateInput) (now : Nat) (db : DB) :
    ((i.title = none ∧ i.description = none ∧ i.template = none ∧
        i.tags = none ∧ i.isActive = none) →
      updatePromptTemplate (some uid) i now db = (.error .validationError, db)) ∧
    (∀ e, ensureTemplateAccessible i.id uid db = .error e →
        updateTemplateInputValid i = true →
      updatePromptTemplate (some uid) i now db = (.error e, db)) ∧
    (∀ r db', updatePromptTemplate (some uid) i now db = (.ok r, db') →
      (∀ u ∈ db.promptTemplates, u.id ≠ i.id → u ∈ db'.promptTemplates) ∧
      (∀ u ∈ db'.promptTemplates, u.id ≠ i.id → u ∈ db.promptTemplates) ∧
      (∀ t₀, (db.promptTemplates.filter (fun u => u.id == i.id)).head? = some t₀ →
        r = some (applyTemplatePatch i now t₀))) ∧
    (∀ t₀, (applyTemplatePatch i now t₀).id = t₀.id ∧
      (applyTemplatePatch i now t₀).ownerId = t₀.ownerId ∧
      (applyTemplatePatch i now t₀).createdAt = t₀.createdAt ∧
      (applyTemplatePatch i now t₀).updatedAt = now ∧
      (i.title = none → (applyTemplatePatch i now t₀).title = t₀.title) ∧
      (∀ v, i.title = some v → (applyTemplatePatch i now t₀).title = v) ∧
      (i.description = none →
        (applyTemplatePatch i now t₀).description = t₀.description) ∧
      (∀ v, i.description = some v →
        (applyTemplatePatch i now t₀).description = some v) ∧
      (i.template = none → (applyTemplatePatch i now t₀).template = t₀.template) ∧
      (∀ v, i.template = some v → (applyTemplatePatch i now t₀).template = v) ∧
      (i.tags = none → (applyTemplatePatch i now t₀).tags = t₀.tags) ∧
      (∀ v, i.tags = some v → (applyTemplatePatch i now t₀).tags = some v) ∧
      (i.isActive = none → (applyTemplatePatch i now t₀).isActive = t₀.isActive) ∧
      (∀ v, i.isActive = some v → (applyTemplatePatch i now t₀).isActive = v)) := by
  have hpatch_id : ∀ t₀, (applyTemplatePatch i now t₀).id = t₀.id := by
    intro t₀; simp [applyTemplatePatch]
  refine ⟨?_, ?_, ?_, ?_⟩
  · rintro ⟨h1, h2, h3, h4, h5⟩
    have hv : updateTemplateInputValid i = false := by
      simp [updateTemplateInputValid, h1, h2, h3, h4, h5]
    simp [updatePromptTemplate, hv]
  · intro e he hv
    simp [updatePromptTemplate, hv, requireUser, he]
  · intro r db' h
    by_cases hv : updateTemplateInputValid i
    · cases hacc : ensureTemplateAccessible i.id uid db with
      | error e => simp [updatePromptTemplate, hv, requireUser, hacc] at h
      | ok t =>
          simp only [updatePromptTemplate, hv, not_true, Bool.not_eq_true,
            if_false, requireUser, hacc, Prod.mk.injEq, Except.ok.injEq,
            if_neg] at h
          obtain ⟨hr, hdb⟩ := h
          subst hr
          subst hdb
          refine ⟨?_, ?_, ?_⟩
          · intro u hu hne
            simp only [DB.promptTemplates]
            exact List.mem_map.mpr ⟨u, hu, by simp [hne]⟩
          · intro u hu hne
            obtain ⟨v, hv', hvu⟩ := List.mem_map.mp hu
            by_cases hid : v.id = i.id
            · exfalso
              rw [← hvu] at hne
              simp [hid, hpatch_id v] at hne
            · rwa [← hvu, if_neg (by simpa using hid)]
          · intro t₀ ht₀
            have hcomp : (fun u : Template => u.id == i.id) ∘
                (fun t : Template =>
                  if t.id == i.id then applyTemplatePatch i now t else t)
                  = fun u : Template => u.id == i.id := by
              funext t
              by_cases hid : t.id = i.id <;>
                simp [Function.comp, hid, hpatch_id t]
            have hmemf : t₀ ∈ db.promptTemplates.filter
                (fun u => u.id == i.id) :=
              List.mem_of_mem_head? (by simp [ht₀])
            have hpred := (List.mem_filter.mp hmemf).2
            rw [List.filter_map, hcomp, List.head?_map, ht₀]
            simp only [Option.map_some', Option.some.injEq]
            rw [if_pos hpred]
    · simp [updatePromptTemplate, hv] at h
  · intro t₀
    refine ⟨rfl, rfl, rfl, rfl, ?_, ?_, ?_, ?_, ?_, ?_, ?_, ?_, ?_, ?_⟩ <;>
      first
        | (intro hn; simp [applyTemplatePatch, hn])
        | (intro v hv; simp [applyTemplatePatch, hv])

/-- Witness for C6: a validated single-field update against `alice`'s
template succeeds and preserves the omitted fields of the stored row. -/
theorem c6_updatePromptTemplate_patch_semantics_witness :
    ∀ r db', updatePromptTemplate (some "alice")
        { id := 2, title := some "New title", description := none,
          template := none, tags := none, isActive := none } 9 c1DB
        = (.ok r, db') →
      r = some (applyTemplatePatch
        { id := 2, title := some "New title", description := none,
          template := none, tags := none, isActive := none } 9 aliceTemplate) := by
  intro r db' h
  exact (((c6_updatePromptTemplate_patch_semantics "alice" _ 9 c1DB).2.2.1
    r db' h).2.2) aliceTemplate rfl

/-- C10: every generated-prompt row and every job row created through the
exposed operations carries `userId = some caller` — non-null although the
schema declares the column optional — is appended to its table, and is
therefore returned by the caller's scoped list operation on the resulting
state. -/
theorem c10_created_rows_carry_caller_id
    (uid : String) (now : Nat) (db : DB) :
    (∀ i p db', createGeneratedPrompt (some uid) i now db = (.ok p, db') →
      p.userId = some uid ∧
      db'.generatedPrompts = db.generatedPrompts ++ [p] ∧
      ∀ l, listGeneratedPrompts (some uid) none db' = .ok l → p ∈ l) ∧
    (∀ i j db', createPromptJob (some uid) i now db = (.ok j, db') →
      j.userId = some uid ∧
      db'.promptJobs = db.promptJobs ++ [j] ∧
      ∀ l, listPromptJobs (some uid) db' = .ok l → j ∈ l) := by
  constructor
  · intro i p db' h
    simp only [createGeneratedPrompt, requireUser] at h
    split at h
    · simp at h
    · split at h
      · simp at h
      · simp only [Prod.mk.injEq, Except.ok.injEq] at h
        obtain ⟨hp, hdb⟩ := h
        subst hp
        subst hdb
        refine ⟨rfl, rfl, ?_⟩
        intro l hl
        simp only [listGeneratedPrompts, requireUser, Except.ok.injEq] at hl
        subst hl
        rw [List.mem_filter]
        exact ⟨by simp, by simp [sqlEq]⟩
  · intro i j db' h
    simp only [createPromptJob, requireUser] at h
    split at h
    · simp at h
    · simp only [Prod.mk.injEq, Except.ok.injEq] at h
      obtain ⟨hj, hdb⟩ := h
      subst hj
      subst hdb
      refine ⟨rfl, rfl, ?_⟩
      intro l hl
      simp only [listPromptJobs, requireUser, Except.ok.injEq] at hl
      subst hl
      rw [List.mem_filter]
      exact ⟨by simp, by simp [sqlEq]⟩

/-- Witness for C10: concrete creations by `alice` in the empty state
produce rows stamped with her id. -/
theorem c10_created_rows_carry_caller_id_witness :
    (∀ p db', createGeneratedPrompt (some "alice")
        { templateId := none, input := none, promptText := "P", meta := none }
        3 emptyDB = (.ok p, db') → p.userId = some "alice") ∧
    (∀ j db', createPromptJob (some "alice")
        { templateId := none, input := none, output := none, status := none }
        3 emptyDB = (.ok j, db') → j.userId = some "alice") := by
  constructor
  · intro p db' h
    exact ((c10_created_rows_carry_caller_id "alice" 3 emptyDB).1 _ p db' h).1
  · intro j db' h
    exact ((c10_created_rows_carry_caller_id "alice" 3 emptyDB).2 _ j db' h).1

end Eduprompt
